import Mathlib

/-!
Shallow embedding of src/server.py, the event-planner MCP server.

Utterances are modelled as List Char. The embedding covers the ASCII
fragment of the Python operations str.lower, the regex classes \d and \s,
and the substring test: the catalogs, regex literals and prompts of the
source are all ASCII, so the fragment is exact on every input the
specification talks about.

Python truthiness on the optional record fields (the tests written
"if not event_details.x:" in the source) is embedded by the predicates
strFalsy, intFalsy and amtFalsy: None, the empty string and the
integer 0 are falsy.

The Python tool ask_for_details mutates its record argument in place and
returns a message; the embedding returns the updated record paired with
the message. The source reads the module globals event_data and
location_data, which in this repository always hold the built-in
fallback catalogs, because the JSON data files are not part of the
repository; the embedding passes the catalogs as explicit parameters and
defines the fallback values under their source names.
-/

/-- Python truthiness test for an optional string field: None and the
empty string are falsy. -/
def strFalsy : Option String → Bool
  | none => true
  | some s => s == ""

/-- Python truthiness test for the optional integer guest count: None
and 0 are falsy. -/
def intFalsy : Option Int → Bool
  | none => true
  | some n => n == 0

/-- Python truthiness test for the optional numeric budget amount: None
and 0 are falsy. -/
def amtFalsy : Option Nat → Bool
  | none => true
  | some n => n == 0

/-- ASCII fragment of Python str.lower on one character. -/
def pyLowerChar (c : Char) : Char :=
  if 'A' ≤ c ∧ c ≤ 'Z' then Char.ofNat (c.toNat + 32) else c

/-- ASCII fragment of Python str.lower. -/
def pyLower (s : List Char) : List Char := s.map pyLowerChar

/-- ASCII fragment of the Python regex class \s. -/
def pySpace (c : Char) : Bool :=
  c == ' ' || c == '\t' || c == '\n' || c == '\r' || c == '\x0b' || c == '\x0c'

/-- Tests whether the first list is a leading segment of the second. -/
def leadsWith : List Char → List Char → Bool
  | [], _ => true
  | _ :: _, [] => false
  | a :: as, b :: bs => a == b && leadsWith as bs

/-- Python substring test: needle in hay. -/
def containsSub (needle : List Char) : List Char → Bool
  | [] => needle.isEmpty
  | c :: t => leadsWith needle (c :: t) || containsSub needle t

/-- Value of a decimal digit run, as Python int of the matched group. -/
def natOfDigits (ds : List Char) : Nat :=
  ds.foldl (fun acc c => acc * 10 + (c.toNat - 48)) 0

/-- Embeds re.search for the patterns of the source, all of the shape
digits, optional whitespace, then a fixed literal: the result is the
parsed digit run of the leftmost match. Greedy matching of the digit run
and the whitespace run is exact for these patterns, because a shorter
run would continue with a digit or a whitespace character at a position
where the literal is required, and the literals start with a letter. -/
def reSearchNum (lit : List Char) : List Char → Option Nat
  | [] => none
  | c :: t =>
    if c.isDigit then
      if leadsWith lit (((c :: t).dropWhile Char.isDigit).dropWhile pySpace) then
        some (natOfDigits ((c :: t).takeWhile Char.isDigit))
      else reSearchNum lit t
    else reSearchNum lit t

/-- Vendor record produced by find_vendors; the five fields are the
normalized search-result fields, modelled as opaque strings. -/
structure VendorRecord where
  name : String
  link : String
  rating : String
  reviews : String
  snippet : String
deriving DecidableEq

/-- The EventDetails pydantic model of the source (server.py lines 62
to 68). guest_count is a Python int or None, so Option Int. -/
structure EventDetails where
  event_type : Option String
  location : Option String
  guest_count : Option Int
  budget_range : Option String
  theme : Option String
  vendor_details : List (String × List VendorRecord)
deriving DecidableEq

/-- A catalog entry: canonical name plus matching keywords. -/
structure RefEntry where
  name : String
  keywords : List (List Char)
deriving DecidableEq

/-- Built-in fallback event catalog (server.py lines 75 to 79). The
JSON data files are absent from the repository, so this is the
effective catalog at runtime. -/
def event_data : List RefEntry :=
  [ { name := "Wedding", keywords := ["wedding".toList, "marriage".toList] },
    { name := "Birthday Party", keywords := ["birthday".toList] },
    { name := "Festival Celebration",
      keywords := ["festival".toList, "diwali".toList, "holi".toList] } ]

/-- Built-in fallback location catalog (server.py lines 85 to 89). -/
def location_data : List RefEntry :=
  [ { name := "Tiruchirappalli, Tamil Nadu",
      keywords := ["tiruchirappalli".toList, "trichy".toList] },
    { name := "Delhi, NCR", keywords := ["delhi".toList, "ncr".toList] },
    { name := "Mumbai, Maharashtra", keywords := ["mumbai".toList] } ]

/-- A catalog entry matches when one of its keywords occurs as a
substring of the lowercased input. -/
def entryMatches (input : List Char) (e : RefEntry) : Bool :=
  e.keywords.any (fun kw => containsSub kw input)

/-- The nested catalog loops of ask_for_details (server.py lines 111 to
128): each entry whose keywords match overwrites the current value with
the entry name, and the outer loop stops as soon as the field is
truthy. -/
def scanEntries : List RefEntry → List Char → Option String → Option String
  | [], _, cur => cur
  | e :: rest, input, cur =>
    let cur2 := if entryMatches input e then some e.name else cur
    if strFalsy cur2 then scanEntries rest input cur2 else cur2

/-- The guarded catalog scan: the loops run only when the field is
falsy. -/
def updateCatalogField (catalog : List RefEntry) (input : List Char) (cur : Option String) :
    Option String :=
  if strFalsy cur then scanEntries catalog input cur else cur

def guestLit : List Char := "guest".toList
def kLit : List Char := "k".toList
def lakhLit : List Char := "lakh".toList
def croreLit : List Char := "crore".toList

/-- Guest-count parsing of ask_for_details (server.py lines 131 to
134): the pattern is digits, optional whitespace, then the word guest
with an optional trailing s; the trailing s never affects whether the
pattern matches, so only the literal guest is checked. -/
def updateGuestCount (input : List Char) (cur : Option Int) : Option Int :=
  if intFalsy cur then
    match reSearchNum guestLit input with
    | some n => some (n : Int)
    | none => cur
  else cur

/-- Bucketing of a numeric budget amount (server.py lines 154 to 159). -/
def bucket (n : Nat) : String :=
  if n < 50000 then "low" else if n < 500000 then "moderate" else "high"

/-- Numeric budget-amount derivation (server.py lines 138 to 151): the
k pattern, then, while the amount is still falsy, the lakh pattern,
then the crore pattern. -/
def budgetAmount (input : List Char) : Option Nat :=
  let a1 : Option Nat :=
    match reSearchNum kLit input with
    | some n => some (n * 1000)
    | none => none
  let a2 : Option Nat :=
    if amtFalsy a1 then
      match reSearchNum lakhLit input with
      | some n => some (n * 100000)
      | none => a1
    else a1
  if amtFalsy a2 then
    match reSearchNum croreLit input with
    | some n => some (n * 10000000)
    | none => a2
  else a2

/-- Keyword fallback for the budget field (server.py lines 161 to
167). -/
def budgetKeywordFallback (input : List Char) (cur : Option String) : Option String :=
  if containsSub ("low budget".toList) input || containsSub ("affordable".toList) input then
    some ("low")
  else if containsSub ("moderate".toList) input then some ("moderate")
  else if containsSub ("high budget".toList) input || containsSub ("lavish".toList) input then
    some ("high")
  else cur

/-- Budget parsing of ask_for_details (server.py lines 137 to 167): a
truthy derived amount is bucketed, a falsy one is discarded, and the
keyword fallback runs only if the field is still falsy afterwards. -/
def updateBudget (input : List Char) (cur : Option String) : Option String :=
  if strFalsy cur then
    let br :=
      match budgetAmount input with
      | some n => if n == 0 then cur else some (bucket n)
      | none => cur
    if strFalsy br then budgetKeywordFallback input br else br
  else cur

def eventPrompt : String :=
  "What kind of event are you planning? (e.g., Wedding, Birthday, or a Festival like Diwali)"

/-- Python f-string rendering of an optional string: None renders as
the text None. -/
def optStr : Option String → String
  | some s => s
  | none => "None"

def locationPrompt (et : String) : String :=
  "Got it, a " ++ et ++ ". Where will this event be held?"

def guestPrompt : String :=
  "And about how many guests will be attending? Please provide a number."

def budgetPrompt : String :=
  "To help me plan, what\x27s your budget like? (e.g., low, moderate, high, or a specific amount like 50k or 1 lakh)"

def completionMsg : String :=
  "Thank you! I have all the details. I will now create a personalized plan for you."

/-- Embeds the tool ask_for_details (server.py lines 100 to 183). -/
def ask_for_details (ed ld : List RefEntry) (d : EventDetails) (user_input : List Char) :
    EventDetails × String :=
  let input := pyLower user_input
  let et := updateCatalogField ed input d.event_type
  let loc := updateCatalogField ld input d.location
  let gc := updateGuestCount input d.guest_count
  let br := updateBudget input d.budget_range
  let d2 : EventDetails :=
    { d with event_type := et, location := loc, guest_count := gc, budget_range := br }
  let msg :=
    if strFalsy et then eventPrompt
    else if strFalsy loc then locationPrompt (optStr et)
    else if intFalsy gc then guestPrompt
    else if strFalsy br then budgetPrompt
    else completionMsg
  (d2, msg)

/-- Prompt selection as the specification words it: the clarifying
prompt of the first still-missing field of a record, in the fixed
priority order, and the completion message when none is missing. -/
def selectMessage (d : EventDetails) : String :=
  if strFalsy d.event_type then eventPrompt
  else if strFalsy d.location then locationPrompt (optStr d.event_type)
  else if intFalsy d.guest_count then guestPrompt
  else if strFalsy d.budget_range then budgetPrompt
  else completionMsg

/-- The record with every field unset. -/
def emptyRecord : EventDetails :=
  { event_type := none, location := none, guest_count := none, budget_range := none,
    theme := none, vendor_details := [] }

structure PlanItem where
  category : String
  description : String
deriving DecidableEq

/-- The plan dictionary returned by plan_event. -/
structure Plan where
  event_type : Option String
  location : Option String
  guest_count : Option Int
  budget_range : Option String
  plan_items : List PlanItem
deriving DecidableEq

/-- The seven wedding plan items (server.py lines 204 to 212). -/
def weddingItems : List PlanItem :=
  [ { category := "Venue & Catering",
      description := "Booking a suitable venue and caterer for the ceremony and reception." },
    { category := "Photography & Videography",
      description := "Hiring a photographer and videographer to capture candid and traditional moments." },
    { category := "Decorations & Florist",
      description := "Arranging for mandap decor, floral arrangements, and lighting." },
    { category := "Bridal Services",
      description := "Hiring a professional makeup and mehendi artist for the bride." },
    { category := "Entertainment",
      description := "Booking a DJ or live band for music and a choreographer for sangeet." },
    { category := "Ceremony Officiant",
      description := "Finding a priest or pandit to conduct the rituals." },
    { category := "Logistics",
      description := "Arranging transportation for the baraat and guests." } ]

/-- The four birthday plan items (server.py lines 214 to 219). -/
def birthdayItems : List PlanItem :=
  [ { category := "Venue & Decor",
      description := "Booking a party hall and setting up theme-based decorations." },
    { category := "Catering",
      description := "Arranging food, drinks, and a birthday cake." },
    { category := "Entertainment",
      description := "Hiring a DJ, magician, or other performers." },
    { category := "Photography",
      description := "Hiring a photographer to capture the celebration." } ]

/-- The four generic fallback plan items (server.py lines 221 to 226). -/
def genericItems : List PlanItem :=
  [ { category := "General",
      description := "This is a basic plan as the event type is not recognized." },
    { category := "Venue",
      description := "Selecting a suitable location." },
    { category := "Food",
      description := "Planning for food and beverages." },
    { category := "Services",
      description := "Arranging for essential services like music and photography." } ]

/-- Embeds the tool plan_event (server.py lines 187 to 228). When
event_type is None the Python call raises AttributeError at the
substring test on event_type.lower(); the embedding returns none in
that case. A present string, even the empty one, selects a checklist
normally. -/
def plan_event (d : EventDetails) : Option Plan :=
  match d.event_type with
  | none => none
  | some et =>
    some { event_type := some et, location := d.location, guest_count := d.guest_count,
           budget_range := d.budget_range,
           plan_items :=
             if containsSub ("wedding".toList) (pyLower et.toList) then weddingItems
             else if containsSub ("birthday".toList) (pyLower et.toList) then birthdayItems
             else genericItems }

/-- One raw search-result item: every field the normalization reads,
each possibly absent; values are opaque strings. -/
structure SearchItem where
  title : Option String
  link : Option String
  rating : Option String
  reviews : Option String
  snippet : Option String
deriving DecidableEq

/-- The provider response as read by find_vendors: the local results
followed by the organic results. -/
structure SearchResults where
  local_results : List SearchItem
  organic_results : List SearchItem
deriving DecidableEq

/-- The MCP error payload raised by find_vendors. -/
structure ErrorData where
  code : String
  message : String
deriving DecidableEq

/-- Normalization of one search item (server.py lines 262 to 268):
every missing field defaults to N/A. -/
def normalizeItem (it : SearchItem) : VendorRecord :=
  { name := it.title.getD ("N/A"), link := it.link.getD ("N/A"),
    rating := it.rating.getD ("N/A"), reviews := it.reviews.getD ("N/A"),
    snippet := it.snippet.getD ("N/A") }

/-- The accumulation loop of find_vendors (server.py lines 260 to 271):
append each normalized item and stop once the list holds five. -/
def buildVendorList : List SearchItem → List VendorRecord → List VendorRecord
  | [], acc => acc
  | it :: rest, acc =>
    let acc2 := acc ++ [normalizeItem it]
    if 5 ≤ acc2.length then acc2 else buildVendorList rest acc2

/-- Embeds the tool find_vendors (server.py lines 232 to 276). The
external search call is modelled by its outcome: either a provider
response or a raised failure carrying a message. Any failure is caught
and re-raised as a single McpError with code INVALID_PARAMS. -/
def find_vendors (response : Except String SearchResults) :
    Except ErrorData (List VendorRecord) :=
  match response with
  | Except.ok results =>
    Except.ok (buildVendorList (results.local_results ++ results.organic_results) [])
  | Except.error e =>
    Except.error { code := "INVALID_PARAMS", message := "Failed to find vendors: " ++ e }


/-! ### Helper lemmas -/

theorem updateCatalogField_of_truthy (c : List RefEntry) (input : List Char)
    (cur : Option String) (h : strFalsy cur = false) :
    updateCatalogField c input cur = cur := by
  simp [updateCatalogField, h]

theorem updateGuestCount_of_truthy (input : List Char) (cur : Option Int)
    (h : intFalsy cur = false) : updateGuestCount input cur = cur := by
  simp [updateGuestCount, h]

theorem updateBudget_of_truthy (input : List Char) (cur : Option String)
    (h : strFalsy cur = false) : updateBudget input cur = cur := by
  simp [updateBudget, h]

theorem strFalsy_bucket (n : Nat) : strFalsy (some (bucket n)) = false := by
  unfold bucket
  split
  · decide
  · split <;> decide

theorem budgetAmount_of_k (input : List Char) (n : Nat)
    (h : reSearchNum kLit input = some n) (hn : n ≠ 0) :
    budgetAmount input = some (n * 1000) := by
  have hf : amtFalsy (some (n * 1000)) = false := by
    simp [amtFalsy]
    omega
  simp [budgetAmount, h, hf]

theorem budgetAmount_of_lakh (input : List Char) (n : Nat)
    (hk : reSearchNum kLit input = none ∨ reSearchNum kLit input = some 0)
    (h : reSearchNum lakhLit input = some n) (hn : n ≠ 0) :
    budgetAmount input = some (n * 100000) := by
  have hf : amtFalsy (some (n * 100000)) = false := by
    simp [amtFalsy]
    omega
  rcases hk with hk | hk <;> simp [budgetAmount, hk, h, hf, amtFalsy] <;>
    exact fun h2 => absurd h2 hn

theorem budgetAmount_of_crore (input : List Char) (n : Nat)
    (hk : reSearchNum kLit input = none ∨ reSearchNum kLit input = some 0)
    (hl : reSearchNum lakhLit input = none ∨ reSearchNum lakhLit input = some 0)
    (h : reSearchNum croreLit input = some n) (hn : n ≠ 0) :
    budgetAmount input = some (n * 10000000) := by
  have hf : amtFalsy (some (n * 10000000)) = false := by
    simp [amtFalsy]
    omega
  rcases hk with hk | hk <;> rcases hl with hl | hl <;>
    simp [budgetAmount, hk, hl, h, hf, amtFalsy]

theorem updateBudget_of_amount (input : List Char) (cur : Option String) (n : Nat)
    (hc : strFalsy cur = true) (ha : budgetAmount input = some n) (hn : n ≠ 0) :
    updateBudget input cur = some (bucket n) := by
  have hb : (n == 0) = false := by
    simp
    omega
  simp [updateBudget, hc, ha, hb, strFalsy_bucket]

theorem budget_range_of_ask (ed ld : List RefEntry) (d : EventDetails) (u : List Char) :
    (ask_for_details ed ld d u).1.budget_range = updateBudget (pyLower u) d.budget_range := rfl

/-! ### Claim C1 -/

/-- Claim C1: write-once accumulation. For every catalog pair, record
and utterance, a field of the record that is already non-empty, in the
sense of Python truthiness used by the source guards, is returned
unchanged by ask_for_details; extraction only fills fields that are
still empty and never removes or changes a value once set. -/
theorem C1_write_once (ed ld : List RefEntry) (d : EventDetails) (u : List Char) :
    (strFalsy d.event_type = false →
      (ask_for_details ed ld d u).1.event_type = d.event_type) ∧
    (strFalsy d.location = false →
      (ask_for_details ed ld d u).1.location = d.location) ∧
    (intFalsy d.guest_count = false →
      (ask_for_details ed ld d u).1.guest_count = d.guest_count) ∧
    (strFalsy d.budget_range = false →
      (ask_for_details ed ld d u).1.budget_range = d.budget_range) := by
  refine ⟨fun h => ?_, fun h => ?_, fun h => ?_, fun h => ?_⟩ <;>
    simp [ask_for_details, updateCatalogField_of_truthy, updateGuestCount_of_truthy,
      updateBudget_of_truthy, h]

/-- A fully filled record used in witnesses. -/
def recFull : EventDetails :=
  { event_type := some ("Wedding"), location := some ("Delhi, NCR"), guest_count := some 150,
    budget_range := some ("high"), theme := none, vendor_details := [] }

theorem C1_write_once_witness :
    strFalsy recFull.event_type = false ∧
    (ask_for_details event_data location_data recFull
        ("a birthday in mumbai for 7 guests and 49k".toList)).1.event_type =
      recFull.event_type ∧
    (ask_for_details event_data location_data recFull
        ("a birthday in mumbai for 7 guests and 49k".toList)).1.location = recFull.location ∧
    (ask_for_details event_data location_data recFull
        ("a birthday in mumbai for 7 guests and 49k".toList)).1.guest_count =
      recFull.guest_count ∧
    (ask_for_details event_data location_data recFull
        ("a birthday in mumbai for 7 guests and 49k".toList)).1.budget_range =
      recFull.budget_range := by
  have h := C1_write_once event_data location_data recFull
    ("a birthday in mumbai for 7 guests and 49k".toList)
  exact ⟨by decide, h.1 (by decide), h.2.1 (by decide), h.2.2.1 (by decide),
    h.2.2.2 (by decide)⟩

/-! ### Claim C2 -/

/-- Claim C2 fails as stated at the concrete utterance with digits 0
before the k suffix. In the utterance my budget is 0k, the k pattern
succeeds and derives the amount 0 x 1000 = 0, which is below 50000, so
the claim requires budget_range low; the code instead treats the zero
amount as falsy, tries the later patterns and assigns no bucket, leaving
budget_range unset. And in the utterance 0k and 9 lakh the first
successful pattern (k, amount 0) does not win: the later lakh pattern
assigns high. -/
theorem C2_counterexample :
    reSearchNum kLit (pyLower ("my budget is 0k".toList)) = some 0 ∧
    (ask_for_details event_data location_data emptyRecord
        ("my budget is 0k".toList)).1.budget_range = none ∧
    reSearchNum kLit (pyLower ("0k and 9 lakh".toList)) = some 0 ∧
    (ask_for_details event_data location_data emptyRecord
        ("0k and 9 lakh".toList)).1.budget_range = some ("high") := by
  decide

/-- Claim C2 (amended): with budget_range unset, the numeric patterns
k, lakh, crore are tried in that order and the first pattern deriving a
non-zero amount wins, with no combination of patterns; a pattern whose
digits parse to 0 is treated as unsuccessful, so later patterns are
still tried and a zero amount is never bucketed. A derived non-zero
amount below 50000 yields low, below 500000 yields moderate, otherwise
high; in particular budget is 2 lakh yields moderate, 50k yields
moderate (exactly 50000 is not low) and 49k yields low. -/
theorem C2_budget_amended (ed ld : List RefEntry) (d : EventDetails) (u : List Char)
    (h : strFalsy d.budget_range = true) :
    (∀ n : Nat, reSearchNum kLit (pyLower u) = some n → n ≠ 0 →
      (ask_for_details ed ld d u).1.budget_range = some (bucket (n * 1000))) ∧
    (∀ n : Nat,
      (reSearchNum kLit (pyLower u) = none ∨ reSearchNum kLit (pyLower u) = some 0) →
      reSearchNum lakhLit (pyLower u) = some n → n ≠ 0 →
      (ask_for_details ed ld d u).1.budget_range = some (bucket (n * 100000))) ∧
    (∀ n : Nat,
      (reSearchNum kLit (pyLower u) = none ∨ reSearchNum kLit (pyLower u) = some 0) →
      (reSearchNum lakhLit (pyLower u) = none ∨ reSearchNum lakhLit (pyLower u) = some 0) →
      reSearchNum croreLit (pyLower u) = some n → n ≠ 0 →
      (ask_for_details ed ld d u).1.budget_range = some (bucket (n * 10000000))) ∧
    (ask_for_details event_data location_data emptyRecord
        ("budget is 2 lakh".toList)).1.budget_range = some ("moderate") ∧
    (ask_for_details event_data location_data emptyRecord
        ("50k".toList)).1.budget_range = some ("moderate") ∧
    (ask_for_details event_data location_data emptyRecord
        ("49k".toList)).1.budget_range = some ("low") := by
  refine ⟨?_, ?_, ?_, by decide, by decide, by decide⟩
  · intro n hk hn
    rw [budget_range_of_ask]
    exact updateBudget_of_amount _ _ _ h (budgetAmount_of_k _ _ hk hn) (by omega)
  · intro n hk hl hn
    rw [budget_range_of_ask]
    have ha := budgetAmount_of_lakh _ _ hk hl hn
    exact updateBudget_of_amount _ _ _ h ha (by omega)
  · intro n hk hl hc hn
    rw [budget_range_of_ask]
    have ha := budgetAmount_of_crore _ _ hk hl hc hn
    exact updateBudget_of_amount _ _ _ h ha (by omega)

theorem C2_budget_witness :
    (ask_for_details event_data location_data emptyRecord
        ("budget is 2 lakh".toList)).1.budget_range = some ("moderate") ∧
    (ask_for_details event_data location_data emptyRecord
        ("50k".toList)).1.budget_range = some ("moderate") ∧
    (ask_for_details event_data location_data emptyRecord
        ("49k".toList)).1.budget_range = some ("low") ∧
    (ask_for_details event_data location_data emptyRecord
        ("8 crore".toList)).1.budget_range = some (bucket (8 * 10000000)) := by
  have h := C2_budget_amended event_data location_data emptyRecord
    ("8 crore".toList) (by decide)
  refine ⟨h.2.2.2.1, h.2.2.2.2.1, h.2.2.2.2.2, ?_⟩
  exact h.2.2.1 8 (by decide) (by decide) (by decide) (by decide)

/-! ### Claim C3 -/

theorem data_append (a b : String) : (a ++ b).data = a.data ++ b.data := by
  cases a
  cases b
  rfl

theorem locationPrompt_head (s : String) :
    (locationPrompt s).data.head? = some 'G' := by
  cases s with
  | mk data => rfl

theorem locationPrompt_ne_completion (s : String) : locationPrompt s ≠ completionMsg := by
  intro h
  have h2 : (locationPrompt s).data.head? = completionMsg.data.head? := by rw [h]
  rw [locationPrompt_head] at h2
  exact absurd h2 (by decide)

theorem locationPrompt_ne_event (s : String) : locationPrompt s ≠ eventPrompt := by
  intro h
  have h2 : (locationPrompt s).data.head? = eventPrompt.data.head? := by rw [h]
  rw [locationPrompt_head] at h2
  exact absurd h2 (by decide)

theorem selectMessage_eq_completion_iff (d : EventDetails) :
    selectMessage d = completionMsg ↔
      (strFalsy d.event_type = false ∧ strFalsy d.location = false ∧
       intFalsy d.guest_count = false ∧ strFalsy d.budget_range = false) := by
  unfold selectMessage
  cases h1 : strFalsy d.event_type
  · cases h2 : strFalsy d.location
    · cases h3 : intFalsy d.guest_count
      · cases h4 : strFalsy d.budget_range
        · simp [h1, h2, h3, h4]
        · simp [h1, h2, h3, h4]
          decide
      · simp [h1, h2, h3]
        decide
    · simp [h1, h2]
      exact locationPrompt_ne_completion _
  · simp [h1]
    decide

/-- Claim C3: prompt selection. After attempted extraction, the
returned message is the clarifying prompt of the first still-missing
field of the updated record, in the fixed priority order event type,
location, guest count, budget, and it is the completion confirmation
exactly when none of the four fields is missing. A record whose
event_type is already non-empty never draws the event-type prompt, and
when its location is still missing after the call, the location prompt
for that event type is returned. -/
theorem C3_prompt_selection (ed ld : List RefEntry) (d : EventDetails) (u : List Char) :
    ((ask_for_details ed ld d u).2 = selectMessage (ask_for_details ed ld d u).1) ∧
    ((ask_for_details ed ld d u).2 = completionMsg ↔
      (strFalsy (ask_for_details ed ld d u).1.event_type = false ∧
       strFalsy (ask_for_details ed ld d u).1.location = false ∧
       intFalsy (ask_for_details ed ld d u).1.guest_count = false ∧
       strFalsy (ask_for_details ed ld d u).1.budget_range = false)) ∧
    (strFalsy d.event_type = false → (ask_for_details ed ld d u).2 ≠ eventPrompt) ∧
    (strFalsy d.event_type = false →
      strFalsy (ask_for_details ed ld d u).1.location = true →
      (ask_for_details ed ld d u).2 = locationPrompt (optStr d.event_type)) := by
  have e0 : (ask_for_details ed ld d u).2 = selectMessage (ask_for_details ed ld d u).1 := rfl
  refine ⟨e0, e0 ▸ selectMessage_eq_completion_iff _, ?_, ?_⟩
  · intro h
    have hpe : (ask_for_details ed ld d u).1.event_type = d.event_type :=
      updateCatalogField_of_truthy ed (pyLower u) d.event_type h
    rw [e0]
    unfold selectMessage
    rw [hpe, h]
    simp only [Bool.false_eq_true, if_false]
    cases h2 : strFalsy ((ask_for_details ed ld d u).1.location)
    · cases h3 : intFalsy ((ask_for_details ed ld d u).1.guest_count)
      · cases h4 : strFalsy ((ask_for_details ed ld d u).1.budget_range)
        · simp only [Bool.false_eq_true, if_false]
          decide
        · simp only [Bool.false_eq_true, if_false, if_true]
          decide
      · simp only [Bool.false_eq_true, if_false, if_true]
        decide
    · simp only [if_true]
      exact locationPrompt_ne_event _
  · intro h hloc
    have hpe : (ask_for_details ed ld d u).1.event_type = d.event_type :=
      updateCatalogField_of_truthy ed (pyLower u) d.event_type h
    rw [e0]
    unfold selectMessage
    rw [hpe, h, hloc]
    simp

theorem C3_prompt_selection_witness :
    (ask_for_details event_data location_data
        { emptyRecord with event_type := some ("Wedding") } ("hello".toList)).2 =
      locationPrompt ("Wedding") ∧
    (ask_for_details event_data location_data
        { emptyRecord with event_type := some ("Wedding") } ("hello".toList)).2 ≠
      eventPrompt ∧
    (ask_for_details event_data location_data recFull ("hello".toList)).2 =
      completionMsg := by
  have h := C3_prompt_selection event_data location_data
    { emptyRecord with event_type := some ("Wedding") } ("hello".toList)
  have hf := C3_prompt_selection event_data location_data recFull ("hello".toList)
  exact ⟨h.2.2.2 (by decide) (by decide), h.2.2.1 (by decide),
    hf.2.1.mpr ⟨by decide, by decide, by decide, by decide⟩⟩

/-! ### Claim C4 -/

theorem scanEntries_eq_find (catalog : List RefEntry) (input : List Char)
    (cur : Option String) (hc : strFalsy cur = true)
    (hn : ∀ e ∈ catalog, e.name ≠ "") :
    scanEntries catalog input cur =
      (match catalog.find? (entryMatches input) with
       | some e => some e.name
       | none => cur) := by
  induction catalog with
  | nil => simp [scanEntries]
  | cons e rest ih =>
    have hne : e.name ≠ "" := hn e (List.mem_cons_self e rest)
    by_cases hm : entryMatches input e = true
    · have hs : strFalsy (some e.name) = false := by
        simp [strFalsy, hne]
      simp [scanEntries, hm, hs, List.find?_cons_of_pos _ hm]
    · have hm2 : entryMatches input e = false := by
        simpa using hm
      have hrest := ih (fun x hx => hn x (List.mem_cons_of_mem e hx))
      rw [List.find?_cons_of_neg _ (by simp [hm2])]
      simp [scanEntries, hm2, hc, hrest]

/-- Claim C4: catalog matching. With the field unset, the catalog is
scanned in catalog order and the first entry with a keyword occurring
as a substring of the lowercased utterance sets the field to that entry
canonical name, stopping at the first matching entry and never choosing
a later or better match; whenever some catalog keyword occurs in the
utterance, the field ends up set to the canonical name of the first
matching entry. The hypotheses state that catalog names are non-empty,
which holds for the catalogs of the source. -/
theorem C4_catalog_matching (ed ld : List RefEntry) (d : EventDetails) (u : List Char)
    (he : ∀ e ∈ ed, e.name ≠ "") (hl : ∀ e ∈ ld, e.name ≠ "") :
    (strFalsy d.event_type = true →
      (ask_for_details ed ld d u).1.event_type =
        (match ed.find? (entryMatches (pyLower u)) with
         | some e => some e.name
         | none => d.event_type)) ∧
    (strFalsy d.location = true →
      (ask_for_details ed ld d u).1.location =
        (match ld.find? (entryMatches (pyLower u)) with
         | some e => some e.name
         | none => d.location)) ∧
    (strFalsy d.event_type = true → ∀ e ∈ ed, entryMatches (pyLower u) e = true →
      ∃ e2 ∈ ed, ed.find? (entryMatches (pyLower u)) = some e2 ∧
        (ask_for_details ed ld d u).1.event_type = some e2.name) := by
  have hmain : strFalsy d.event_type = true →
      (ask_for_details ed ld d u).1.event_type =
        (match ed.find? (entryMatches (pyLower u)) with
         | some e => some e.name
         | none => d.event_type) := by
    intro h
    have e1 : (ask_for_details ed ld d u).1.event_type =
        updateCatalogField ed (pyLower u) d.event_type := rfl
    rw [e1, updateCatalogField, if_pos h]
    exact scanEntries_eq_find ed (pyLower u) d.event_type h he
  have hlocn : strFalsy d.location = true →
      (ask_for_details ed ld d u).1.location =
        (match ld.find? (entryMatches (pyLower u)) with
         | some e => some e.name
         | none => d.location) := by
    intro h
    have e1 : (ask_for_details ed ld d u).1.location =
        updateCatalogField ld (pyLower u) d.location := rfl
    rw [e1, updateCatalogField, if_pos h]
    exact scanEntries_eq_find ld (pyLower u) d.location h hl
  refine ⟨hmain, hlocn, fun h e he2 hm => ?_⟩
  cases hf : ed.find? (entryMatches (pyLower u)) with
  | none =>
    exact absurd hm (by simpa using List.find?_eq_none.mp hf e he2)
  | some e2 =>
    refine ⟨e2, List.mem_of_find?_eq_some hf, rfl, ?_⟩
    rw [hmain h, hf]

theorem C4_catalog_matching_witness :
    (ask_for_details event_data location_data emptyRecord
        ("planning a Diwali festival in Mumbai".toList)).1.event_type =
      some ("Festival Celebration") ∧
    (ask_for_details event_data location_data emptyRecord
        ("planning a Diwali festival in Mumbai".toList)).1.location =
      some ("Mumbai, Maharashtra") := by
  have h := C4_catalog_matching event_data location_data emptyRecord
    ("planning a Diwali festival in Mumbai".toList) (by decide) (by decide)
  constructor
  · rw [h.1 (by decide)]
    decide
  · rw [h.2.1 (by decide)]
    decide

/-! ### Claim C5 -/

/-- Claim C5: plan_event with a present event_type selects the
checklist by a case-insensitive substring match against wedding, then
birthday, first match winning, with no match falling through to the
generic four-item checklist; any letter casing of Wedding yields the
seven wedding items in fixed order regardless of the other fields, and
the function is pure, so identical input produces identical output. -/
theorem C5_wedding_plan (d : EventDetails) (s : String) (h : d.event_type = some s) :
    (plan_event d =
      some { event_type := some s, location := d.location, guest_count := d.guest_count,
             budget_range := d.budget_range,
             plan_items :=
               if containsSub ("wedding".toList) (pyLower s.toList) then weddingItems
               else if containsSub ("birthday".toList) (pyLower s.toList) then birthdayItems
               else genericItems }) ∧
    (pyLower s.toList = "wedding".toList →
      plan_event d =
        some { event_type := some s, location := d.location, guest_count := d.guest_count,
               budget_range := d.budget_range, plan_items := weddingItems }) ∧
    weddingItems.length = 7 := by
  have h1 : plan_event d =
      some { event_type := some s, location := d.location, guest_count := d.guest_count,
             budget_range := d.budget_range,
             plan_items :=
               if containsSub ("wedding".toList) (pyLower s.toList) then weddingItems
               else if containsSub ("birthday".toList) (pyLower s.toList) then birthdayItems
               else genericItems } := by
    simp [plan_event, h]
  refine ⟨h1, fun hw => ?_, by decide⟩
  rw [h1, hw, if_pos (by decide : containsSub ("wedding".toList) ("wedding".toList) = true)]

theorem C5_wedding_plan_witness :
    plan_event { emptyRecord with event_type := some ("WeDDing") } =
      some { event_type := some ("WeDDing"), location := none, guest_count := none,
             budget_range := none, plan_items := weddingItems } := by
  exact (C5_wedding_plan { emptyRecord with event_type := some ("WeDDing") }
    ("WeDDing") rfl).2.1 (by decide)

/-! ### Claim C6 -/

/-- Claim C6 fails as stated at the concrete record whose event_type is
the empty string: the claim says an empty or missing event_type makes
plan_event fail abnormally, but with event_type present and empty the
substring match runs on the empty string without failing and the
generic checklist is returned; only a missing (None) event_type
crashes. -/
theorem C6_counterexample :
    plan_event { emptyRecord with event_type := some ("") } =
      some { event_type := some (""), location := none, guest_count := none,
             budget_range := none, plan_items := genericItems } := by
  decide

/-- Claim C6 (amended): plan_event fails abnormally exactly when
event_type is missing (None, modelled by the none result); with
event_type present as any string, including the empty string, which
selects the generic checklist, it returns a plan, so under the
precondition that event_type is a non-empty string the crash is
unreachable. -/
theorem C6_crash_amended (d : EventDetails) :
    (plan_event d = none ↔ d.event_type = none) ∧
    (∀ s : String, d.event_type = some s → (plan_event d).isSome = true) ∧
    (d.event_type = some ("") →
      plan_event d =
        some { event_type := some (""), location := d.location,
               guest_count := d.guest_count, budget_range := d.budget_range,
               plan_items := genericItems }) := by
  refine ⟨?_, fun s hs => by simp [plan_event, hs], fun h0 => ?_⟩
  · cases hd : d.event_type with
    | none => simp [plan_event, hd]
    | some s => simp [plan_event, hd]
  · simp only [plan_event, h0]
    rw [if_neg (by decide), if_neg (by decide)]

theorem C6_crash_witness :
    plan_event emptyRecord = none ∧
    (plan_event { emptyRecord with event_type := some ("Holi Festival") }).isSome = true := by
  exact ⟨(C6_crash_amended emptyRecord).1.mpr rfl,
    (C6_crash_amended { emptyRecord with event_type := some ("Holi Festival") }).2.1
      ("Holi Festival") rfl⟩

/-! ### Claim C7 -/

theorem buildVendorList_eq (items : List SearchItem) (acc : List VendorRecord)
    (h : acc.length < 5) :
    buildVendorList items acc = acc ++ (items.map normalizeItem).take (5 - acc.length) := by
  induction items generalizing acc with
  | nil => simp [buildVendorList]
  | cons it rest ih =>
    simp only [buildVendorList, List.map_cons]
    by_cases h5 : 5 ≤ (acc ++ [normalizeItem it]).length
    · rw [if_pos h5]
      have h4 : acc.length = 4 := by
        rw [List.length_append] at h5
        simp at h5
        omega
      have e1 : 5 - acc.length = 1 := by omega
      simp [e1]
    · rw [if_neg h5]
      have h5b : (acc ++ [normalizeItem it]).length < 5 := by omega
      rw [ih _ h5b]
      have e2 : 5 - (acc ++ [normalizeItem it]).length = 4 - acc.length := by
        rw [List.length_append]
        simp
      have e1 : 5 - acc.length = (4 - acc.length) + 1 := by omega
      rw [e2, e1, List.take_succ_cons]
      simp

/-- Claim C7: find_vendors result shape. The returned list is the
concatenation of local then organic provider results, each normalized
with missing fields defaulting to N/A, truncated to the first five with
provider ordering preserved; with 3 local and 4 organic results the
return is the 3 local entries followed by the first 2 organic entries,
and the length never exceeds 5. -/
theorem C7_vendor_shape (r : SearchResults) :
    (find_vendors (Except.ok r) =
      Except.ok (((r.local_results ++ r.organic_results).map normalizeItem).take 5)) ∧
    (∀ l, find_vendors (Except.ok r) = Except.ok l → l.length ≤ 5) ∧
    (r.local_results.length = 3 → r.organic_results.length = 4 →
      find_vendors (Except.ok r) =
        Except.ok (r.local_results.map normalizeItem ++
          (r.organic_results.map normalizeItem).take 2)) ∧
    (∀ it : SearchItem, it.title = none → (normalizeItem it).name = "N/A") := by
  have h0 : find_vendors (Except.ok r) =
      Except.ok (((r.local_results ++ r.organic_results).map normalizeItem).take 5) := by
    show Except.ok (buildVendorList (r.local_results ++ r.organic_results) []) = _
    rw [buildVendorList_eq _ _ (by simp)]
    simp
  refine ⟨h0, fun l hl => ?_, fun h3 h4 => ?_, fun it ht => by simp [normalizeItem, ht]⟩
  · rw [h0] at hl
    have he : ((r.local_results ++ r.organic_results).map normalizeItem).take 5 = l := by
      injection hl
    rw [← he, List.length_take]
    omega
  · rw [h0]
    have e : ((r.local_results ++ r.organic_results).map normalizeItem).take 5 =
        r.local_results.map normalizeItem ++ (r.organic_results.map normalizeItem).take 2 := by
      rw [List.map_append, List.take_append_eq_append_take]
      have e1 : (List.map normalizeItem r.local_results).length = 3 := by
        simp [h3]
      rw [e1]
      rw [List.take_of_length_le (by simp [h3])]
    rw [e]

/-- Three local and four organic items used by the C7 witness. -/
def sampleResults : SearchResults :=
  { local_results :=
      [ { title := some ("L1"), link := some ("l1"), rating := none, reviews := none,
          snippet := none },
        { title := some ("L2"), link := none, rating := none, reviews := none,
          snippet := none },
        { title := some ("L3"), link := none, rating := none, reviews := none,
          snippet := none } ],
    organic_results :=
      [ { title := some ("O1"), link := none, rating := none, reviews := none,
          snippet := none },
        { title := some ("O2"), link := none, rating := none, reviews := none,
          snippet := none },
        { title := some ("O3"), link := none, rating := none, reviews := none,
          snippet := none },
        { title := some ("O4"), link := none, rating := none, reviews := none,
          snippet := none } ] }

theorem C7_vendor_shape_witness :
    find_vendors (Except.ok sampleResults) =
      Except.ok (sampleResults.local_results.map normalizeItem ++
        (sampleResults.organic_results.map normalizeItem).take 2) ∧
    (∀ l, find_vendors (Except.ok sampleResults) = Except.ok l → l.length ≤ 5) := by
  have h := C7_vendor_shape sampleResults
  exact ⟨h.2.2.1 (by decide) (by decide), h.2.1⟩

/-! ### Claim C8 -/

/-- Claim C8: failure semantics of find_vendors. Every failure raised
inside the search call is caught and re-signalled as exactly one error
with code INVALID_PARAMS whose message carries the original failure
text, and no vendor list, partial or otherwise, is returned. -/
theorem C8_vendor_failure (msg : String) :
    find_vendors (Except.error msg) =
      Except.error { code := "INVALID_PARAMS",
                     message := "Failed to find vendors: " ++ msg } := rfl

/-! ### Claim C9 -/

/-- Claim C9: the zero guest count edge case. When guest_count is unset
and the guest pattern of the lowercased utterance matches the digit run
0, ask_for_details stores guest_count 0, yet the stored 0 is still
falsy, so the guest-count prompt is returned whenever event type and
location are present, and any later call treats the stored 0 as missing
and overwrites it with a newly matched count; 0 is the only integer
value that is falsy, so it is the one guest_count value for which
write-once fails. -/
theorem C9_zero_guests (ed ld : List RefEntry) (d : EventDetails) (u : List Char)
    (h1 : intFalsy d.guest_count = true)
    (h2 : reSearchNum guestLit (pyLower u) = some 0) :
    ((ask_for_details ed ld d u).1.guest_count = some 0) ∧
    (intFalsy (ask_for_details ed ld d u).1.guest_count = true) ∧
    (strFalsy (ask_for_details ed ld d u).1.event_type = false →
      strFalsy (ask_for_details ed ld d u).1.location = false →
      (ask_for_details ed ld d u).2 = guestPrompt) ∧
    (∀ u2 : List Char, ∀ n : Nat, reSearchNum guestLit (pyLower u2) = some n →
      (ask_for_details ed ld (ask_for_details ed ld d u).1 u2).1.guest_count =
        some (n : Int)) ∧
    (∀ m : Int, intFalsy (some m) = true ↔ m = 0) := by
  have hq : (ask_for_details ed ld d u).1.guest_count = some 0 := by
    have e1 : (ask_for_details ed ld d u).1.guest_count =
        updateGuestCount (pyLower u) d.guest_count := rfl
    rw [e1]
    simp [updateGuestCount, h1, h2]
  have hz : intFalsy (ask_for_details ed ld d u).1.guest_count = true := by
    rw [hq]
    decide
  refine ⟨hq, hz, fun het hloc => ?_, fun u2 n hn2 => ?_, fun m => by simp [intFalsy]⟩
  · have e0 : (ask_for_details ed ld d u).2 =
        selectMessage (ask_for_details ed ld d u).1 := rfl
    rw [e0]
    unfold selectMessage
    rw [het, hloc, hz]
    simp
  · have e1 : (ask_for_details ed ld (ask_for_details ed ld d u).1 u2).1.guest_count =
        updateGuestCount (pyLower u2) (ask_for_details ed ld d u).1.guest_count := rfl
    rw [e1, hq]
    simp [updateGuestCount, intFalsy, hn2]

/-- A record with event type and location set, used by the C9 witness. -/
def recWL : EventDetails :=
  { event_type := some ("Wedding"), location := some ("Delhi, NCR"), guest_count := none,
    budget_range := none, theme := none, vendor_details := [] }

theorem C9_zero_guests_witness :
    ((ask_for_details event_data location_data recWL ("0 guests".toList)).1.guest_count =
      some 0) ∧
    ((ask_for_details event_data location_data recWL ("0 guests".toList)).2 =
      guestPrompt) ∧
    ((ask_for_details event_data location_data
        (ask_for_details event_data location_data recWL ("0 guests".toList)).1
        ("7 guests".toList)).1.guest_count = some 7) := by
  have h := C9_zero_guests event_data location_data recWL ("0 guests".toList)
    (by decide) (by decide)
  exact ⟨h.1, h.2.2.1 (by decide) (by decide), h.2.2.2.1 ("7 guests".toList) 7 (by decide)⟩

/-! ### Claim C10 -/

/-- Claim C10: frame property of the extractor. ask_for_details leaves
theme and vendor_details unchanged, and both the updated four extracted
fields and the returned message, completion confirmation included,
depend only on event_type, location, guest_count, budget_range and the
utterance: two records agreeing on those four fields yield the same
message and the same updated four fields. -/
theorem C10_frame (ed ld : List RefEntry) (d1 d2 : EventDetails) (u : List Char)
    (h1 : d1.event_type = d2.event_type) (h2 : d1.location = d2.location)
    (h3 : d1.guest_count = d2.guest_count) (h4 : d1.budget_range = d2.budget_range) :
    ((ask_for_details ed ld d1 u).1.theme = d1.theme) ∧
    ((ask_for_details ed ld d1 u).1.vendor_details = d1.vendor_details) ∧
    ((ask_for_details ed ld d1 u).2 = (ask_for_details ed ld d2 u).2) ∧
    ((ask_for_details ed ld d1 u).1.event_type = (ask_for_details ed ld d2 u).1.event_type) ∧
    ((ask_for_details ed ld d1 u).1.location = (ask_for_details ed ld d2 u).1.location) ∧
    ((ask_for_details ed ld d1 u).1.guest_count =
      (ask_for_details ed ld d2 u).1.guest_count) ∧
    ((ask_for_details ed ld d1 u).1.budget_range =
      (ask_for_details ed ld d2 u).1.budget_range) := by
  have e : ∀ dd : EventDetails, (ask_for_details ed ld dd u).2 =
      (if strFalsy (updateCatalogField ed (pyLower u) dd.event_type) then eventPrompt
       else if strFalsy (updateCatalogField ld (pyLower u) dd.location) then
         locationPrompt (optStr (updateCatalogField ed (pyLower u) dd.event_type))
       else if intFalsy (updateGuestCount (pyLower u) dd.guest_count) then guestPrompt
       else if strFalsy (updateBudget (pyLower u) dd.budget_range) then budgetPrompt
       else completionMsg) := fun dd => rfl
  refine ⟨rfl, rfl, ?_, ?_, ?_, ?_, ?_⟩
  · rw [e d1, e d2, h1, h2, h3, h4]
  · show updateCatalogField ed (pyLower u) d1.event_type =
        updateCatalogField ed (pyLower u) d2.event_type
    rw [h1]
  · show updateCatalogField ld (pyLower u) d1.location =
        updateCatalogField ld (pyLower u) d2.location
    rw [h2]
  · show updateGuestCount (pyLower u) d1.guest_count =
        updateGuestCount (pyLower u) d2.guest_count
    rw [h3]
  · show updateBudget (pyLower u) d1.budget_range =
        updateBudget (pyLower u) d2.budget_range
    rw [h4]

/-- A record carrying theme and vendor data, used by the C10 witness. -/
def recThemed : EventDetails :=
  { event_type := none, location := none, guest_count := none, budget_range := none,
    theme := some ("Peacock"), vendor_details := [("Catering", [])] }

theorem C10_frame_witness :
    ((ask_for_details event_data location_data recThemed ("a wedding".toList)).1.theme =
      recThemed.theme) ∧
    ((ask_for_details event_data location_data recThemed
        ("a wedding".toList)).1.vendor_details = recThemed.vendor_details) ∧
    ((ask_for_details event_data location_data recThemed ("a wedding".toList)).2 =
      (ask_for_details event_data location_data emptyRecord ("a wedding".toList)).2) := by
  have h := C10_frame event_data location_data recThemed emptyRecord ("a wedding".toList)
    rfl rfl rfl rfl
  exact ⟨h.1, h.2.1, h.2.2.1⟩
